import Mathlib

/- Shallow embedding of src/AddressBook.py.

   Conventions used throughout this file:
   - Python exceptions are modelled by the Except monad over the PyError type;
     an operation that mutates an object is a function from the old state to
     Except PyError of the new state, and a raised exception leaves the prior
     state untouched, matching the raise-before-write order of the source.
   - A field object (Name, Phone, Email, Birthday, Address) is represented by
     the string stored in its _value slot: every read of a field in the source
     goes through str() or through value equality, so the stored string is the
     whole observable state of a field.
   - date.today() is an ambient input of the program; it is passed explicitly
     as a parameter wherever the source calls it.
   - Character classes (digits, lower-casing) are modelled over ASCII.
   - The module header imports DigiDuckBook.abc_book.AbstractData, a file that
     is not part of this repository; it only serves as an extra abstract base
     of AddressBook and contributes no behaviour to the operations modelled
     here, so it is not modelled.
-/

/-- The Python exception kinds raised by src/AddressBook.py. -/
inductive PyError : Type where
  | valueError (msg : String)
  | keyError (msg : String)
  | typeError (msg : String)
  | attributeError (msg : String)
deriving DecidableEq

/-- A Python datetime.date value: a (validated) year, month, day triple. -/
structure Date where
  year : Int
  month : Nat
  day : Nat
deriving DecidableEq

/-- Numeric value of an ASCII digit character. -/
def digitVal (c : Char) : Nat := c.toNat - 48

/-- Gregorian leap-year rule, as used by Python datetime. -/
def isLeap (y : Int) : Bool := y % 4 == 0 && (y % 100 != 0 || y % 400 == 0)

/-- Number of days in a month of a given year. -/
def daysInMonth (y : Int) (m : Nat) : Nat :=
  if m == 2 then (if isLeap y then 29 else 28)
  else if m == 4 || m == 6 || m == 9 || m == 11 then 30
  else 31

/-- Validity of a year, month, day triple as a Python datetime.date
    (year between MINYEAR 1 and MAXYEAR 9999). -/
def validYMD (y : Int) (m d : Nat) : Bool :=
  decide (1 ≤ y ∧ y ≤ 9999 ∧ 1 ≤ m ∧ m ≤ 12 ∧ 1 ≤ d ∧ d ≤ daysInMonth y m)

/-- Models date.fromisoformat: accepts exactly the shape YYYY-MM-DD denoting a
    valid calendar date, and raises ValueError otherwise. -/
def parseIso (s : String) : Except PyError Date :=
  match s.toList with
  | [y1, y2, y3, y4, s1, m1, m2, s2, d1, d2] =>
    if (s1 == '-') && (s2 == '-') && ([y1, y2, y3, y4, m1, m2, d1, d2].all Char.isDigit) then
      let y : Int := Int.ofNat (((digitVal y1 * 10 + digitVal y2) * 10 + digitVal y3) * 10 + digitVal y4)
      let m : Nat := digitVal m1 * 10 + digitVal m2
      let d : Nat := digitVal d1 * 10 + digitVal d2
      if validYMD y m d then Except.ok (Date.mk y m d)
      else Except.error (PyError.valueError "Invalid isoformat string")
    else Except.error (PyError.valueError "Invalid isoformat string")
  | _ => Except.error (PyError.valueError "Invalid isoformat string")

/-- Models date.replace with a new year: the resulting calendar date is
    revalidated, so projecting Feb 29 into a non-leap year raises ValueError. -/
def replaceYear (dt : Date) (y : Int) : Except PyError Date :=
  if validYMD y dt.month dt.day then Except.ok (Date.mk y dt.month dt.day)
  else Except.error (PyError.valueError "day is out of range for month")

/-- Strict comparison of dates, as Python compares date objects
    (lexicographic on year, month, day). -/
def dateLt (a b : Date) : Bool :=
  decide (a.year < b.year ∨ (a.year = b.year ∧
    (a.month < b.month ∨ (a.month = b.month ∧ a.day < b.day))))

/-- Non-strict comparison of dates. -/
def dateLe (a b : Date) : Bool := dateLt a b || a == b

/-- Rata-die style day number of a date (days-from-civil algorithm), used to
    model subtraction of Python date objects. -/
def toRD (dt : Date) : Int :=
  let y : Int := if dt.month ≤ 2 then dt.year - 1 else dt.year
  let era : Int := (if 0 ≤ y then y else y - 399) / 400
  let yoe : Int := y - era * 400
  let mp : Int := (Int.ofNat dt.month + 9) % 12
  let doy : Int := (153 * mp + 2) / 5 + Int.ofNat dt.day - 1
  let doe : Int := yoe * 365 + yoe / 4 - yoe / 100 + doy
  era * 146097 + doe - 719468

/-- Inverse of toRD (civil-from-days algorithm). -/
def fromRD (z0 : Int) : Date :=
  let z : Int := z0 + 719468
  let era : Int := (if 0 ≤ z then z else z - 146096) / 146097
  let doe : Int := z - era * 146097
  let yoe : Int := (doe - doe / 1460 + doe / 36524 - doe / 146096) / 365
  let y : Int := yoe + era * 400
  let doy : Int := doe - (365 * yoe + yoe / 4 - yoe / 100)
  let mp : Int := (5 * doy + 2) / 153
  let d : Int := doy - (153 * mp + 2) / 5 + 1
  let m : Int := if mp < 10 then mp + 3 else mp - 9
  Date.mk (if m ≤ 2 then y + 1 else y) m.toNat d.toNat

/-- Models adding a timedelta of k days to a date. -/
def addDays (dt : Date) (k : Int) : Date := fromRD (toRD dt + k)

/-- Two-digit zero-padded rendering of a number. -/
def pad2 (n : Nat) : String := if n < 10 then "0" ++ toString n else toString n

/-- Four-digit zero-padded rendering of a number. -/
def pad4 (n : Nat) : String :=
  if n < 10 then "000" ++ toString n
  else if n < 100 then "00" ++ toString n
  else if n < 1000 then "0" ++ toString n
  else toString n

/-- Models date.isoformat: the YYYY-MM-DD rendering of a date. -/
def Date.isoformat (dt : Date) : String :=
  pad4 dt.year.toNat ++ "-" ++ pad2 dt.month ++ "-" ++ pad2 dt.day

/-- The separator characters that Phone validation strips
    (space, parentheses, hyphen), per the re.sub on src line 50. -/
def stripSeps (s : String) : List Char :=
  s.toList.filter (fun c => !(c == ' ' || c == '(' || c == ')' || c == '-'))

/-- Exactly nine ASCII digits. -/
def nineDigits (l : List Char) : Bool := l.length == 9 && l.all Char.isDigit

/-- One alternative of the phone pattern: the whole cleaned string is the given
    literal followed by exactly nine digits. -/
def phoneAlt (pre : List Char) (l : List Char) : Bool :=
  (l.take pre.length == pre) && nineDigits (l.drop pre.length)

/-- Models re.fullmatch on src line 52 with the pattern alternatives for
    +380, 380, 80 and 0 prefixed numbers. -/
def phoneMatches (l : List Char) : Bool :=
  phoneAlt ['+', '3', '8', '0'] l || phoneAlt ['3', '8', '0'] l ||
    phoneAlt ['8', '0'] l || phoneAlt ['0'] l

/-- The last n characters of a list, as Python negative-index slicing takes them. -/
def lastChars (n : Nat) (l : List Char) : List Char := l.drop (l.length - n)

/-- Models Phone._validate (src lines 49-54): strip separators, match the
    pattern, raise ValueError on a mismatch, and RETURN the normalized string
    built from the literal +380 and the last nine characters of the cleaned
    input. -/
def Phone.validate (value : String) : Except PyError String :=
  let cleaned := stripSeps value
  if phoneMatches cleaned then
    Except.ok (String.mk (['+', '3', '8', '0'] ++ lastChars 9 cleaned))
  else Except.error (PyError.valueError "Value is not in correct format")

/-- Models constructing Phone(value) through AbstractField.__init__ and the
    value setter (src lines 14-25): the setter calls _validate purely for its
    checks, DISCARDS the string it returns, and stores the raw input, which is
    what str() on the field later shows. -/
def Phone.init (value : String) : Except PyError String :=
  match Phone.validate value with
  | Except.error e => Except.error e
  | Except.ok _normalized => Except.ok value

/-- The one attribute the body of class Name defines: its validator is written
    with two leading underscores (src line 44), which Python name-mangles to
    _Name__validate, so the abstract method _validate of AbstractField remains
    unimplemented on Name. -/
def Name.ownAttrs : List String := ["_Name__validate"]

/-- Models constructing Name(value) (src lines 43-46): because _validate is
    still abstract, the ABC machinery refuses to instantiate Name, and every
    construction raises TypeError. The inner branch transcribes the body of the
    mangled validator, which can never run since its guard is false. -/
def Name.init (value : String) : Except PyError String :=
  if Name.ownAttrs.contains "_validate" then
    if value.length > 2 then Except.ok value
    else Except.error (PyError.valueError "Name is too short")
  else
    Except.error (PyError.typeError
      "cannot instantiate abstract class Name with abstract method _validate")

/-- The attribute state of a Record object: each field object is represented by
    the string in its _value slot, optional fields by Option. -/
structure Record where
  name : String
  phones : List String
  email : Option String
  birthday : Option String
  address : Option String
deriving DecidableEq

/-- The attributes defined in the body of class Record (src lines 85-186).
    Record has no base class, so an attribute lookup on a Record instance can
    only find these names, instance attributes set in __init__, or object
    built-ins. The helper converters _name, _phone, _email, _birthday and
    _address called by __init__ and by the mutation methods are absent. -/
def Record.classAttrs : List String :=
  ["__init__", "add_phone", "remove_phone", "change_phone", "change_email",
   "change_birthday", "days_to_birthday", "change_address", "__str__",
   "__repr__", "to_dict"]

/-- Models Record.__init__ (src lines 86-98): its first statement evaluates
    self._name, an attribute that does not exist, so construction raises
    AttributeError before any field is assigned. The then-branch shows the
    record state that would be produced were identity converters present; its
    guard is false. -/
def Record.init (name : String) (phones : List String)
    (email birthday address : Option String) : Except PyError Record :=
  if Record.classAttrs.contains "_name" then
    Except.ok (Record.mk name phones email birthday address)
  else Except.error (PyError.attributeError "Record object has no attribute _name")

/-- Models evaluating self._phone(x) inside a Record method: the attribute
    _phone is not defined on class Record, so the lookup raises AttributeError
    before the argument matters. The then-branch is unreachable. -/
def Record.phoneConv (x : String) : Except PyError String :=
  if Record.classAttrs.contains "_phone" then Except.ok x
  else Except.error (PyError.attributeError "Record object has no attribute _phone")

/-- Index of the first occurrence of x, as list.index returns it for a member. -/
def listIndexOf (x : String) : List String → Nat
  | [] => 0
  | y :: ys => if y == x then 0 else listIndexOf x ys + 1

/-- Models Record.change_phone (src lines 113-123): convert old through
    self._phone, check membership, convert new, check duplication, then
    overwrite the slot at the index of old. Both conversions raise
    AttributeError, so the checks are never reached. -/
def Record.change_phone (r : Record) (old_phone new_phone : String) :
    Except PyError Record :=
  match Record.phoneConv old_phone with
  | Except.error e => Except.error e
  | Except.ok oldN =>
    if !(r.phones.contains oldN) then
      Except.error (PyError.valueError "The phone is not in this record")
    else
      match Record.phoneConv new_phone with
      | Except.error e => Except.error e
      | Except.ok newN =>
        if r.phones.contains newN then
          Except.error (PyError.valueError "The phone already in record")
        else
          Except.ok (Record.mk r.name (r.phones.set (listIndexOf oldN r.phones) newN)
            r.email r.birthday r.address)

/-- Models the try-block of Record.days_to_birthday (src lines 136-140):
    parse the stored birthday, project it onto the current year, roll one year
    forward when it has already passed, and return the day difference.
    Each replace revalidates and may raise ValueError. -/
def Record.days_try (bstr : String) (today : Date) : Except PyError Int :=
  match parseIso bstr with
  | Except.error e => Except.error e
  | Except.ok bd =>
    match replaceYear bd today.year with
    | Except.error e => Except.error e
    | Except.ok bday =>
      if dateLt bday today then
        match replaceYear bday (today.year + 1) with
        | Except.error e => Except.error e
        | Except.ok bday2 => Except.ok (toRD bday2 - toRD today)
      else Except.ok (toRD bday - toRD today)

/-- Models Record.days_to_birthday (src lines 131-144). With no birthday set it
    raises KeyError. On a ValueError from the try-block (for example a Feb 29
    birthday projected into a non-leap year) the except-branch constructs
    Record(self.name, [], date(year, 2, 28).isoformat()); that construction
    raises AttributeError, which is not a ValueError and so propagates. Were
    construction to succeed, the date string would bind to the email parameter,
    the birthday of the temporary record would be None, and the recursive call
    would raise the same KeyError as the none-branch; the ok-branch below
    transcribes that, though Record.init never returns ok. -/
def Record.days_to_birthday (r : Record) (today : Date) : Except PyError Int :=
  match r.birthday with
  | none => Except.error (PyError.keyError "No birthday set for the contact")
  | some bstr =>
    match Record.days_try bstr today with
    | Except.ok v => Except.ok v
    | Except.error (PyError.valueError _) =>
      match Record.init r.name []
          (some (Date.isoformat (Date.mk today.year 2 28))) none none with
      | Except.error e2 => Except.error e2
      | Except.ok _tmp => Except.error (PyError.keyError "No birthday set for the contact")
    | Except.error e => Except.error e

/-- The nested mapping produced for one record by Record.to_dict. -/
structure RecDict where
  phones : List String
  email : Option String
  birthday : Option String
  address : Option String
deriving DecidableEq

/-- Models Record.to_dict (src lines 173-186): a one-entry mapping keyed by the
    name value, with the phone strings and the optional field strings or None. -/
def Record.to_dict (r : Record) : List (String × RecDict) :=
  [(r.name, RecDict.mk r.phones r.email r.birthday r.address)]

/-- Python str() of an optional field slot: None renders as the text None. -/
def pyStrOpt : Option String → String
  | none => "None"
  | some s => s

/-- The record text that AddressBook.search matches against (src lines 257-262):
    name, the space-joined phones, email, birthday and address concatenated,
    absent fields rendering as None. -/
def Record.searchText (r : Record) : String :=
  r.name ++ String.intercalate " " r.phones ++ pyStrOpt r.email ++
    pyStrOpt r.birthday ++ pyStrOpt r.address

/-- The state of an AddressBook: the underlying UserDict data mapping, as a
    key-ordered association list (Python dicts preserve insertion order, and a
    fresh key is appended at the end). -/
abbrev AddressBook := List (String × Record)

/-- Membership test of a key in the data mapping. -/
def AddressBook.containsKey (book : AddressBook) (k : String) : Bool :=
  book.any (fun kv => kv.fst == k)

/-- Models self.data.get(key): the first entry stored under the key, if any. -/
def AddressBook.getData (book : AddressBook) (k : String) : Option Record :=
  match book.find? (fun kv => kv.fst == k) with
  | none => none
  | some kv => some kv.snd

/-- Models AddressBook.__getitem__ (src lines 193-197): KeyError when the key
    is absent, the stored record otherwise. -/
def AddressBook.getItem (book : AddressBook) (k : String) : Except PyError Record :=
  match AddressBook.getData book k with
  | none => Except.error (PyError.keyError "This name is not in Address Book")
  | some r => Except.ok r

/-- Models AddressBook.__setitem__ (src lines 199-204): the isinstance check
    holds by typing here; a key already present raises KeyError before the
    write, otherwise the pair is stored (a fresh key appends at the end). -/
def AddressBook.setItem (book : AddressBook) (k : String) (v : Record) :
    Except PyError AddressBook :=
  if AddressBook.containsKey book k then
    Except.error (PyError.keyError "This name is already in contacts")
  else Except.ok (book ++ [(k, v)])

/-- Models AddressBook.add_record (src lines 190-191): store the record under
    the value of its name field. -/
def AddressBook.add_record (book : AddressBook) (r : Record) :
    Except PyError AddressBook :=
  AddressBook.setItem book r.name r

/-- Runs add_record with the exception semantics of the mutable source object:
    when the call raises, the book state is left exactly as it was. -/
def AddressBook.tryAddRecord (book : AddressBook) (r : Record) : AddressBook :=
  match AddressBook.add_record book r with
  | Except.ok b => b
  | Except.error _ => book

/-- Models the loop of AddressBook.from_dict (src lines 239-246): for each
    entry construct a Record from the stored fields and add it; the record
    construction raises AttributeError on the first entry. -/
def AddressBook.fromDictLoop (book : AddressBook) :
    List (String × RecDict) → Except PyError AddressBook
  | [] => Except.ok book
  | (n, rd) :: rest =>
    match Record.init n rd.phones rd.email rd.birthday rd.address with
    | Except.error e => Except.error e
    | Except.ok r =>
      match AddressBook.add_record book r with
      | Except.error e => Except.error e
      | Except.ok b2 => AddressBook.fromDictLoop b2 rest

/-- Models AddressBook.from_dict (src lines 235-246); the isinstance dict check
    holds by typing here. -/
def AddressBook.from_dict (book : AddressBook) (dataJson : List (String × RecDict)) :
    Except PyError AddressBook :=
  AddressBook.fromDictLoop book dataJson

/-- ASCII model of str.isdigit: nonempty and all characters are digits. -/
def pyIsDigit (s : String) : Bool :=
  !(s.toList.isEmpty) && s.toList.all Char.isDigit

/-- Numeric value of a digit string, as int() reads it. -/
def strToNat (s : String) : Nat :=
  s.toList.foldl (fun a c => a * 10 + digitVal c) 0

/-- Models the loop of AddressBook.groups_days_to_bd (src lines 221-226): for
    each record, record.birthday.get_date() parses the stored string, raising
    AttributeError when the birthday slot holds None; the date is projected
    onto the current year by a revalidating replace; the record is collected
    when the projection falls inside the closed window. -/
def groupsLoop (today last : Date) : List Record → Except PyError (List Record)
  | [] => Except.ok []
  | r :: rs =>
    match r.birthday with
    | none => Except.error (PyError.attributeError "NoneType object has no attribute get_date")
    | some bstr =>
      match parseIso bstr with
      | Except.error e => Except.error e
      | Except.ok bd =>
        match replaceYear bd today.year with
        | Except.error e => Except.error e
        | Except.ok bday =>
          if dateLe today bday && dateLe bday last then
            match groupsLoop today last rs with
            | Except.error e => Except.error e
            | Except.ok rest => Except.ok (r :: rest)
          else groupsLoop today last rs

/-- Models AddressBook.groups_days_to_bd (src lines 213-227): reject an input
    that is not a digit string, compute the window end, then run the loop over
    the records in insertion order. -/
def AddressBook.groups_days_to_bd (book : AddressBook) (inputDays : String)
    (today : Date) : Except PyError (List Record) :=
  if !(pyIsDigit inputDays) then
    Except.error (PyError.valueError "Not valid days, please input num")
  else groupsLoop today (addDays today (Int.ofNat (strToNat inputDays))) (book.map Prod.snd)

/-- ASCII model of str.lower. -/
def pyLower (s : String) : String := String.mk (s.toList.map Char.toLower)

/-- Substring containment of needle in hay, as the Python in operator on
    strings (an empty needle is contained in everything). -/
def listSub (needle : List Char) : List Char → Bool
  | [] => needle.isEmpty
  | c :: t => needle.isPrefixOf (c :: t) || listSub needle t

/-- String form of the substring test. -/
def strContains (hay needle : String) : Bool := listSub needle.toList hay.toList

/-- The match predicate of AddressBook.search (src line 263): case-insensitive
    substring containment of the search word in the record text. -/
def searchHit (w : String) (r : Record) : Bool :=
  strContains (pyLower (Record.searchText r)) (pyLower w)

/-- Models the loop of AddressBook.search (src lines 256-264): collect, in
    iteration order, the records whose text contains the lowered search word. -/
def searchLoop (w : String) : List Record → List Record
  | [] => []
  | r :: rs => if searchHit w r then r :: searchLoop w rs else searchLoop w rs

/-- Models AddressBook.search (src lines 254-265). -/
def AddressBook.search (book : AddressBook) (w : String) : List Record :=
  searchLoop w (book.map Prod.snd)

/-- Models the clamping on src lines 270-271: a page size larger than the
    collection is reduced to the collection size. -/
def clampPage (itemNumber : Int) (n : Nat) : Nat :=
  if itemNumber > (n : Int) then n else itemNumber.toNat

/-- Models the generator loop of AddressBook.iterator (src lines 273-278):
    counter runs from counter0 over the remaining records, each record is
    appended to the current batch acc, and the batch is emitted when the
    counter is a multiple of the page size p or all n records were consumed.
    A leftover batch at loop end is never emitted (the final counter equals n,
    so there is none). -/
def iterLoop {α : Type} (p n : Nat) : Nat → List α → List α → List (List α)
  | _, _, [] => []
  | counter, acc, r :: rs =>
    if counter % p == 0 || counter == n then
      (acc ++ [r]) :: iterLoop p n (counter + 1) [] rs
    else iterLoop p n (counter + 1) (acc ++ [r]) rs

/-- Models AddressBook.iterator (src lines 267-278), with the finite sequence
    of yielded batches collected into a list. A non-positive page size raises
    ValueError (the source raises it on the first next() of the generator; the
    claims treat consuming the iteration as one operation). -/
def AddressBook.iterator (book : AddressBook) (itemNumber : Int) :
    Except PyError (List (List Record)) :=
  if itemNumber ≤ 0 then
    Except.error (PyError.valueError "Item number must be greater than 0.")
  else
    Except.ok (iterLoop (clampPage itemNumber book.length) book.length 1 [] (book.map Prod.snd))

/-- Specification-side chunking: cut a list into consecutive pieces of length
    p, the last piece possibly shorter. -/
def chunkList {α : Type} (p : Nat) : List α → List (List α)
  | [] => []
  | x :: xs =>
    if _h : p = 0 then []
    else (x :: xs).take p :: chunkList p ((x :: xs).drop p)
termination_by l => l.length
decreasing_by
  simp only [List.length_drop, List.length_cons]
  omega

theorem chunkList_nil {α : Type} (p : Nat) : chunkList p ([] : List α) = [] := by
  simp [chunkList]

theorem chunkList_cons {α : Type} (p : Nat) (hp : p ≠ 0) (l : List α) (hl : l ≠ []) :
    chunkList p l = l.take p :: chunkList p (l.drop p) := by
  match l with
  | [] => exact absurd rfl hl
  | x :: xs => simp [chunkList, hp]

theorem chunkList_flatten_aux {α : Type} (p : Nat) (hp : p ≠ 0) :
    ∀ (n : Nat) (l : List α), l.length ≤ n → (chunkList p l).flatten = l := by
  intro n
  induction n with
  | zero =>
    intro l hl
    have h0 : l = [] := List.eq_nil_of_length_eq_zero (Nat.le_zero.mp hl)
    subst h0
    simp [chunkList_nil]
  | succ n ih =>
    intro l hl
    cases l with
    | nil => simp [chunkList_nil]
    | cons x xs =>
      rw [chunkList_cons p hp _ (by simp)]
      have hdrop : ((x :: xs).drop p).length ≤ n := by
        simp only [List.length_drop, List.length_cons]
        have hlen : xs.length + 1 ≤ n + 1 := by simpa using hl
        omega
      simp only [List.flatten_cons, ih _ hdrop, List.take_append_drop]

theorem chunkList_mem_aux {α : Type} (p : Nat) (hp : p ≠ 0) :
    ∀ (n : Nat) (l : List α), l.length ≤ n → ∀ b, b ∈ chunkList p l →
      b ≠ [] ∧ b.length ≤ p := by
  intro n
  induction n with
  | zero =>
    intro l hl b hb
    have h0 : l = [] := List.eq_nil_of_length_eq_zero (Nat.le_zero.mp hl)
    subst h0
    simp [chunkList_nil] at hb
  | succ n ih =>
    intro l hl b hb
    cases l with
    | nil => simp [chunkList_nil] at hb
    | cons x xs =>
      rw [chunkList_cons p hp _ (by simp)] at hb
      rcases List.mem_cons.mp hb with hb1 | hb2
      · subst hb1
        constructor
        · intro hnil
          rcases (List.take_eq_nil_iff).mp hnil with h | h
          · exact hp h
          · cases h
        · simp [Nat.min_le_left]
      · have hdrop : ((x :: xs).drop p).length ≤ n := by
          simp only [List.length_drop, List.length_cons]
          have hlen : xs.length + 1 ≤ n + 1 := by simpa using hl
          omega
        exact ih _ hdrop b hb2

theorem fullInit_cons {α : Type} (b : List α) (rest : List (List α)) (p : Nat)
    (hb : rest ≠ [] → b.length = p)
    (hrest : ∀ i (hi : i + 1 < rest.length),
      (rest.get ⟨i, Nat.lt_of_succ_lt hi⟩).length = p) :
    ∀ i (hi : i + 1 < (b :: rest).length),
      ((b :: rest).get ⟨i, Nat.lt_of_succ_lt hi⟩).length = p := by
  intro i hi
  cases i with
  | zero =>
    have hr : rest ≠ [] := by
      intro h
      subst h
      simp at hi
    simpa using hb hr
  | succ j =>
    have hj : j + 1 < rest.length := by simpa using hi
    simpa using hrest j hj

theorem chunkList_get_aux {α : Type} (p : Nat) (hp : p ≠ 0) :
    ∀ (n : Nat) (l : List α), l.length ≤ n →
      ∀ i (hi : i + 1 < (chunkList p l).length),
        ((chunkList p l).get ⟨i, Nat.lt_of_succ_lt hi⟩).length = p := by
  intro n
  induction n with
  | zero =>
    intro l hl
    have h0 : l = [] := List.eq_nil_of_length_eq_zero (Nat.le_zero.mp hl)
    subst h0
    rw [chunkList_nil]
    intro i hi
    exact absurd hi (by simp)
  | succ n ih =>
    intro l hl
    cases l with
    | nil =>
      rw [chunkList_nil]
      intro i hi
      exact absurd hi (by simp)
    | cons x xs =>
      have hdrop : ((x :: xs).drop p).length ≤ n := by
        simp only [List.length_drop, List.length_cons]
        have hlen : xs.length + 1 ≤ n + 1 := by simpa using hl
        omega
      rw [chunkList_cons p hp _ (by simp)]
      refine fullInit_cons _ _ p ?_ (ih _ hdrop)
      intro hrest
      have hdne : (x :: xs).drop p ≠ [] := by
        intro hdn
        exact hrest (by rw [hdn]; exact chunkList_nil p)
      have hplt : p < (x :: xs).length := by
        have hpos := List.length_pos.mpr hdne
        simp only [List.length_drop] at hpos
        omega
      simp only [List.length_take]
      omega

theorem iterLoop_eq_chunkList {α : Type} (p : Nat) (hp : 0 < p) :
    ∀ (rest acc : List α) (m n : Nat),
      acc.length < p → m % p = acc.length → n = m + rest.length →
      iterLoop p n (m + 1) acc rest =
        if rest.isEmpty then [] else chunkList p (acc ++ rest) := by
  intro rest
  induction rest with
  | nil =>
    intro acc m n _ _ _
    simp [iterLoop]
  | cons r rs ih =>
    intro acc m n hacc hm hn
    have hmod : (m + 1) % p = (acc.length + 1) % p :=
      Nat.ModEq.add_right 1 (show m % p = acc.length % p by
        rw [hm, Nat.mod_eq_of_lt hacc])
    by_cases hc : (m + 1) % p = 0
    · -- the batch reaches the page size and is emitted
      have hdvd : p ∣ acc.length + 1 := by
        rw [hmod] at hc
        exact Nat.dvd_of_mod_eq_zero hc
      have hlen : acc.length + 1 = p := by
        have hle := Nat.le_of_dvd (Nat.succ_pos acc.length) hdvd
        omega
      have hcond : (((m + 1) % p == 0) || ((m + 1) == n)) = true := by
        simp [hc]
      have hstep : iterLoop p n (m + 1) acc (r :: rs) =
          (acc ++ [r]) :: iterLoop p n (m + 1 + 1) [] rs := by
        simp [iterLoop, hcond]
      rw [hstep]
      rw [ih [] (m + 1) n (by simpa using hp) (by simpa using hc)
        (by simp at hn ⊢; omega)]
      have hfull : (acc ++ [r]).length = p := by
        simpa using hlen
      have htail : chunkList p (acc ++ r :: rs) = (acc ++ [r]) :: chunkList p rs := by
        rw [show acc ++ r :: rs = (acc ++ [r]) ++ rs by simp]
        rw [chunkList_cons p (by omega) _ (by simp)]
        rw [List.take_left' hfull, List.drop_left' hfull]
      cases rs with
      | nil => simp [htail, chunkList_nil]
      | cons t ts => simp [htail]
    · by_cases hrs : rs = []
      · -- last record consumed: the counter reaches n and the batch is emitted
        subst hrs
        have hn1 : n = m + 1 := by simpa using hn
        have hcond : (((m + 1) % p == 0) || ((m + 1) == n)) = true := by
          simp [hn1]
        have hstep : iterLoop p n (m + 1) acc [r] =
            (acc ++ [r]) :: iterLoop p n (m + 1 + 1) [] [] := by
          simp [iterLoop, hcond]
        rw [hstep]
        have hle : (acc ++ [r]).length ≤ p := by
          simp only [List.length_append, List.length_cons, List.length_nil]
          omega
        rw [chunkList_cons p (by omega) (acc ++ [r]) (by simp)]
        rw [List.take_of_length_le hle, List.drop_eq_nil_of_le hle]
        simp [iterLoop, chunkList_nil]
      · -- mid-page: the record is appended and the loop continues
        have hne : ((m + 1) == n) = false := by
          have : rs.length ≥ 1 := by
            cases rs with
            | nil => exact absurd rfl hrs
            | cons a b => simp
          simp only [List.length_cons] at hn
          simp only [beq_eq_false_iff_ne, ne_eq]
          omega
        have hcond : (((m + 1) % p == 0) || ((m + 1) == n)) = false := by
          simp [hc, hne]
        have hstep : iterLoop p n (m + 1) acc (r :: rs) =
            iterLoop p n (m + 1 + 1) (acc ++ [r]) rs := by
          simp [iterLoop, hcond, hc]
        rw [hstep]
        have hlt : acc.length + 1 < p := by
          have hne2 : acc.length + 1 ≠ p := by
            intro heq
            apply hc
            rw [hmod, heq, Nat.mod_self]
          omega
        rw [ih (acc ++ [r]) (m + 1) n
          (by simpa using hlt)
          (by rw [hmod]; simp [Nat.mod_eq_of_lt hlt])
          (by simp at hn ⊢; omega)]
        have hrsne : rs.isEmpty = false := by
          cases rs with
          | nil => exact absurd rfl hrs
          | cons a b => rfl
        simp [hrsne]

theorem searchLoop_eq_filter (w : String) :
    ∀ l : List Record, searchLoop w l = l.filter (searchHit w) := by
  intro l
  induction l with
  | nil => rfl
  | cons r rs ih =>
    by_cases h : searchHit w r
    · simp [searchLoop, List.filter_cons, h, ih]
    · simp [searchLoop, List.filter_cons, h, ih]

theorem groupsLoop_error_of_missing (today last : Date) :
    ∀ l : List Record, (∃ r ∈ l, r.birthday = none) →
      ∃ e, groupsLoop today last l = Except.error e := by
  intro l
  induction l with
  | nil =>
    intro h
    obtain ⟨r, hr, _⟩ := h
    simp at hr
  | cons r rs ih =>
    intro h
    simp only [groupsLoop]
    split
    · exact ⟨_, rfl⟩
    · next bstr hb =>
      have hrest : ∃ x ∈ rs, x.birthday = none := by
        obtain ⟨x, hx, hxb⟩ := h
        rcases List.mem_cons.mp hx with h1 | h2
        · subst h1
          rw [hb] at hxb
          cases hxb
        · exact ⟨x, h2, hxb⟩
      obtain ⟨e, he⟩ := ih hrest
      split
      · exact ⟨_, rfl⟩
      · split
        · exact ⟨_, rfl⟩
        · split
          · rw [he]
            exact ⟨e, rfl⟩
          · rw [he]
            exact ⟨e, rfl⟩

/-- Demo record for the duplicate-key claim: first record stored under Anna. -/
def recAnna1 : Record := Record.mk "Anna" ["+380931112233"] none none none

/-- Demo record for the duplicate-key claim: second record with the same name. -/
def recAnna2 : Record := Record.mk "Anna" [] none (some "1999-01-02") none

/-- Demo book already holding a record under the key Anna. -/
def bookAnna : AddressBook := [("Anna", recAnna1)]

/-- Demo record with no birthday set. -/
def recOlha : Record := Record.mk "Olha" [] none none none

/-- Demo book containing a birthday-less record. -/
def bookOlha : AddressBook := [("Olha", recOlha)]

/-- Demo book with five records, for the pagination example. -/
def demo5 : AddressBook :=
  [("Ann", Record.mk "Ann" [] none none none),
   ("Bob", Record.mk "Bob" [] none none none),
   ("Cat", Record.mk "Cat" [] none none none),
   ("Dan", Record.mk "Dan" [] none none none),
   ("Eva", Record.mk "Eva" [] none none none)]

/-- C1: the claim says a raw phone matching one of the accepted forms is stored
    normalized as +380 followed by its last nine digits. The acceptance part
    holds, but the setter discards the normalized string that _validate returns
    and stores the raw input: for the accepted raw input 0931112233 the stored
    value str() shows is 0931112233, not +380931112233, even though _validate
    computed exactly that normalization. -/
theorem phone_value_not_normalized :
    Phone.validate "0931112233" = Except.ok "+380931112233" ∧
    Phone.init "0931112233" = Except.ok "0931112233" ∧
    "0931112233" ≠ "+380931112233" :=
  ⟨rfl, rfl, by decide⟩

/-- C2: every Record construction raises: the first statement of __init__
    evaluates self._name, and none of the helper converters _name, _phone,
    _email, _birthday, _address is defined anywhere on the Record class, so no
    Record value can be created through the public constructor. -/
theorem record_init_always_raises (name : String) (phones : List String)
    (email birthday address : Option String) :
    Record.init name phones email birthday address =
      Except.error (PyError.attributeError "Record object has no attribute _name") ∧
    (["_name", "_phone", "_email", "_birthday", "_address"].all
      (fun a => !(Record.classAttrs.contains a))) = true :=
  ⟨rfl, by decide⟩

/-- C3: the claim says names of length at most 2 fail validation and longer
    names construct and round-trip. In the code the validator of Name is
    spelled with two leading underscores, so the abstract _validate is never
    overridden and EVERY Name construction, for any length, raises TypeError
    from the ABC machinery; the mangled validator (which would implement
    exactly the claimed rule) never runs. -/
theorem name_construction_always_raises (value : String) :
    Name.init value = Except.error (PyError.typeError
      "cannot instantiate abstract class Name with abstract method _validate") ∧
    Name.ownAttrs.contains "_validate" = false :=
  ⟨rfl, by decide⟩

/-- C4: the claim says a Feb-29 birthday evaluated in a non-leap year after
    Feb 28 does not raise and falls back to Feb 28 plus one. In the code the
    projection onto the current year raises ValueError as expected, but the
    except-branch then constructs Record(self.name, [], feb28-isoformat),
    which raises AttributeError (no attribute _name) that propagates; moreover
    the date string is passed positionally into the email parameter, so even
    a working constructor would leave the birthday unset. -/
theorem days_to_birthday_feb29_raises :
    Record.days_try "2000-02-29" (Date.mk 2023 3 15) =
      Except.error (PyError.valueError "day is out of range for month") ∧
    Record.days_to_birthday (Record.mk "Taras" [] none (some "2000-02-29") none)
      (Date.mk 2023 3 15) =
      Except.error (PyError.attributeError "Record object has no attribute _name") :=
  ⟨rfl, rfl⟩

/-- C5: adding a record whose name key is already present fails with the
    duplicate-key KeyError, raised before any write, and the record stored
    under that key before the call is still the one stored after it. -/
theorem add_record_duplicate_keeps_first (book : AddressBook) (r1 r2 : Record)
    (h : AddressBook.getData book r2.name = some r1) :
    AddressBook.add_record book r2 =
      Except.error (PyError.keyError "This name is already in contacts") ∧
    AddressBook.getItem (AddressBook.tryAddRecord book r2) r2.name = Except.ok r1 := by
  have hc : AddressBook.containsKey book r2.name = true := by
    unfold AddressBook.getData at h
    unfold AddressBook.containsKey
    cases hf : book.find? (fun kv => kv.fst == r2.name) with
    | none => rw [hf] at h; cases h
    | some kv =>
      have hmem : kv ∈ book := List.mem_of_find?_eq_some hf
      have hpred := List.find?_some hf
      exact List.any_eq_true.mpr ⟨kv, hmem, hpred⟩
  have hadd : AddressBook.add_record book r2 =
      Except.error (PyError.keyError "This name is already in contacts") := by
    simp [AddressBook.add_record, AddressBook.setItem, hc]
  refine ⟨hadd, ?_⟩
  simp [AddressBook.tryAddRecord, hadd, AddressBook.getItem, h]

theorem add_record_duplicate_keeps_first_witness :
    AddressBook.add_record bookAnna recAnna2 =
      Except.error (PyError.keyError "This name is already in contacts") ∧
    AddressBook.getItem (AddressBook.tryAddRecord bookAnna recAnna2) recAnna2.name =
      Except.ok recAnna1 :=
  add_record_duplicate_keeps_first bookAnna recAnna1 recAnna2 rfl

/-- C6: on a book containing a birthday-less record, the birthday-window query
    with a digit-string input raises for the whole query rather than skipping
    the record; and a non-digit-string input raises ValueError whatever the
    book holds, before any record is examined. -/
theorem groups_days_to_bd_failure_modes (book : AddressBook) (inputDays : String)
    (today : Date) :
    (pyIsDigit inputDays = true → (∃ r ∈ book.map Prod.snd, r.birthday = none) →
      ∃ e, AddressBook.groups_days_to_bd book inputDays today = Except.error e) ∧
    (pyIsDigit inputDays = false →
      AddressBook.groups_days_to_bd book inputDays today =
        Except.error (PyError.valueError "Not valid days, please input num")) := by
  constructor
  · intro hd hmiss
    have hlp := groupsLoop_error_of_missing today
      (addDays today (Int.ofNat (strToNat inputDays))) (book.map Prod.snd) hmiss
    simpa [AddressBook.groups_days_to_bd, hd] using hlp
  · intro hd
    simp [AddressBook.groups_days_to_bd, hd]

theorem groups_days_to_bd_failure_modes_witness :
    (∃ e, AddressBook.groups_days_to_bd bookOlha "5" (Date.mk 2023 3 15) =
      Except.error e) ∧
    AddressBook.groups_days_to_bd bookOlha "x5" (Date.mk 2023 3 15) =
      Except.error (PyError.valueError "Not valid days, please input num") :=
  ⟨(groups_days_to_bd_failure_modes bookOlha "5" (Date.mk 2023 3 15)).1 (by decide)
      ⟨recOlha, by decide, rfl⟩,
    (groups_days_to_bd_failure_modes bookOlha "x5" (Date.mk 2023 3 15)).2 (by decide)⟩

/-- C7: a non-positive page size makes the paginated iteration fail with
    ValueError; a positive page size (clamped to the collection size when
    larger) yields successive non-overlapping batches of the records in
    insertion order, every batch before the last of exactly the clamped size,
    the last nonempty and no longer, together covering every record exactly
    once; in particular a page size of 2 over the five-record demo book yields
    batch sizes 2, 2, 1. -/
theorem iterator_paginates (book : AddressBook) (q : Int) :
    (q ≤ 0 → AddressBook.iterator book q =
      Except.error (PyError.valueError "Item number must be greater than 0.")) ∧
    (0 < q → ∃ bs, AddressBook.iterator book q = Except.ok bs ∧
      bs.flatten = book.map Prod.snd ∧
      (∀ b, b ∈ bs → b ≠ [] ∧ b.length ≤ min q.toNat book.length) ∧
      (∀ i (hi : i + 1 < bs.length),
        (bs.get ⟨i, Nat.lt_of_succ_lt hi⟩).length = min q.toNat book.length)) ∧
    (∃ bs, AddressBook.iterator demo5 2 = Except.ok bs ∧
      bs.map List.length = [2, 2, 1] ∧ bs.flatten = demo5.map Prod.snd) := by
  refine ⟨?_, ?_, ⟨_, rfl, rfl, rfl⟩⟩
  · intro hq
    simp [AddressBook.iterator, hq]
  · intro hq
    have hq0 : ¬ q ≤ 0 := by omega
    by_cases hb : book.length = 0
    · have hbook : book = [] := List.eq_nil_of_length_eq_zero hb
      subst hbook
      refine ⟨[], ?_, by simp, by simp, ?_⟩
      · simp [AddressBook.iterator, hq0, iterLoop]
      · intro i hi
        simp at hi
    · have hp : 0 < clampPage q book.length := by
        unfold clampPage
        split
        · omega
        · omega
      have hpmin : clampPage q book.length = min q.toNat book.length := by
        unfold clampPage
        split
        · next hgt =>
          have hle : book.length ≤ q.toNat := by omega
          exact (Nat.min_eq_right hle).symm
        · next hgt =>
          have hle : q.toNat ≤ book.length := by omega
          exact (Nat.min_eq_left hle).symm
      have hvlen : (book.map Prod.snd).length = book.length := by simp
      have hbridge := iterLoop_eq_chunkList (clampPage q book.length) hp
        (book.map Prod.snd) [] 0 book.length (by simpa using hp) (by simp)
        (by simp [hvlen])
      have hvne : (book.map Prod.snd).isEmpty = false := by
        cases hm : book.map Prod.snd with
        | nil => rw [hm] at hvlen; simp at hvlen; omega
        | cons a l => rfl
      rw [hvne] at hbridge
      simp only [List.nil_append, Bool.false_eq_true, if_false] at hbridge
      have hiter : AddressBook.iterator book q =
          Except.ok (chunkList (clampPage q book.length) (book.map Prod.snd)) := by
        unfold AddressBook.iterator
        rw [if_neg hq0]
        exact congrArg Except.ok hbridge
      refine ⟨chunkList (clampPage q book.length) (book.map Prod.snd), hiter, ?_, ?_, ?_⟩
      · exact chunkList_flatten_aux _ (by omega) _ _ le_rfl
      · intro b hbm
        have hres := chunkList_mem_aux _ (by omega) (book.map Prod.snd).length _ le_rfl b hbm
        rw [hpmin] at hres
        exact hres
      · intro i hi
        have hres := chunkList_get_aux _ (by omega) (book.map Prod.snd).length _ le_rfl i hi
        rw [← hpmin]
        exact hres

theorem iterator_paginates_witness :
    ∃ bs, AddressBook.iterator demo5 2 = Except.ok bs ∧
      bs.flatten = demo5.map Prod.snd ∧
      (∀ b, b ∈ bs → b ≠ [] ∧ b.length ≤ min (Int.toNat 2) demo5.length) ∧
      (∀ i (hi : i + 1 < bs.length),
        (bs.get ⟨i, Nat.lt_of_succ_lt hi⟩).length = min (Int.toNat 2) demo5.length) :=
  (iterator_paginates demo5 2).2.1 (by decide)

/-- C8: the claim describes change_phone replacing in place with not-found and
    duplicate checks. In the code the very first step of change_phone
    evaluates self._phone, an attribute undefined on Record, so every call,
    including changing a phone to itself or to a fresh unused number, raises
    AttributeError instead of the claimed behaviour; the membership checks and
    in-place write are never reached. -/
theorem change_phone_always_raises :
    Record.change_phone (Record.mk "Alla" ["+380931112233"] none none none)
      "+380931112233" "+380931112233" =
      Except.error (PyError.attributeError "Record object has no attribute _phone") ∧
    Record.change_phone (Record.mk "Alla" ["+380931112233"] none none none)
      "+380931112233" "+380930000001" =
      Except.error (PyError.attributeError "Record object has no attribute _phone") :=
  ⟨rfl, rfl⟩

/-- C9: the claim says a name-only record survives a to_dict then from_dict
    round trip. In the code such a record can never be created in the first
    place (the constructor raises AttributeError), and from_dict applied to
    exactly the mapping to_dict would produce for such a record state raises
    the same AttributeError while reconstructing, so the round trip fails
    rather than reproducing the record. -/
theorem to_dict_from_dict_roundtrip_raises :
    Record.init "Alona" [] none none none =
      Except.error (PyError.attributeError "Record object has no attribute _name") ∧
    AddressBook.from_dict []
      (Record.to_dict (Record.mk "Alona" [] none none none)) =
      Except.error (PyError.attributeError "Record object has no attribute _name") :=
  ⟨rfl, rfl⟩

/-- C10: search returns exactly the records, in collection iteration order,
    whose concatenated name, space-joined phones, email, birthday and address
    text (absent fields rendering as the text None) contains the search word
    as a case-insensitive substring; in particular searching 380 in a book
    whose only record holds phone +380991234567 returns that record, and an
    email domain in capitals is found by its lower-case form. -/
theorem search_matches_substring (book : AddressBook) (w : String) :
    AddressBook.search book w = (book.map Prod.snd).filter (searchHit w) ∧
    AddressBook.search [("Bill", Record.mk "Bill" ["+380991234567"] none none none)]
      "380" = [Record.mk "Bill" ["+380991234567"] none none none] ∧
    AddressBook.search [("Anna", Record.mk "Anna" [] (some "Anna@GMAIL.com") none none)]
      "gmail" = [Record.mk "Anna" [] (some "Anna@GMAIL.com") none none] :=
  ⟨searchLoop_eq_filter w (book.map Prod.snd), rfl, rfl⟩
